import Mathlib

/-!
Shallow embedding of `src/app.py` (Polytech production dashboard).

Numeric dataframe cells are modelled as exact rationals (`ℚ`); a cell that
pandas would hold as NaN (the "undefined" metric value) is modelled as
`Option ℚ` with `none` for NaN.  A dataframe is a `List Row`.  The embedded
functions follow the source line by line:

* `load_row`        — the per-row derivations of `load_data` (lines 34-48):
                      `Good units`, `Quality`, `Performance`, `Planned days`;
* `add_oee_metrics` — lines 53-72: `Planned hours`, clipped `Availability`,
                      `OEE`;
* `aggregate_oee`   — lines 78-119: the groupby/agg of the summed columns,
                      ratio-of-sums `Quality` and `Availability` with clip,
                      the second groupby computing the mean of `Performance`,
                      and the left merge of the two results;
* `overallSummary`  — the top-level KPI block of `main` (lines 238-263).

Pandas behaviours that matter here and are modelled explicitly: NaN
propagates through arithmetic (`nmul`); `groupby` drops rows whose key is
NaN (`groupRows`); column sums skip NaN (`Option.getD 0`); grouping by a
column name that is not in the dataframe raises a distinguished fatal
error (pandas `KeyError`, the spec taxonomy's `InvalidGroupKey`), and an
empty key list raises (pandas `ValueError`).  Pandas sorts group keys while
this model keeps first-occurrence order; no claim below depends on the
order of groups (the only indexed access is into a single-group result).
-/

namespace PolytechDashboard

/-- NaN-propagating multiplication of dataframe cells: the product of two
pandas values is NaN as soon as one factor is NaN. -/
def nmul (a b : Option ℚ) : Option ℚ :=
  match a, b with
  | some x, some y => some (x * y)
  | _, _ => none

/-- `Series.clip(lower=0, upper=1)` / `np.clip(x, 0, 1)` on a number. -/
def clip01 (x : ℚ) : ℚ :=
  min (max x 0) 1

/-- One dataframe row as produced by `load_data` (app.py lines 11-50).
`plannedHours`, `availability`, `oee` are the columns that exist only after
`add_oee_metrics` ran; before that the columns are absent (`none`). -/
structure Row where
  date : Option String
  machine : String
  product : String
  production : ℚ
  reject : ℚ
  performancePct : ℚ
  workingDays : ℚ
  downtime : ℚ
  goodUnits : ℚ
  quality : Option ℚ
  performance : ℚ
  plannedDays : ℚ
  plannedHours : Option ℚ := none
  availability : Option ℚ := none
  oee : Option ℚ := none
deriving DecidableEq, Repr

/-- The per-row work of `load_data` (app.py lines 22-48): trim the text
fields, then derive `Good units`, `Quality` (NaN unless production > 0),
`Performance` (a copy of `Performance %`) and `Planned days` (a copy of
`Working days`). -/
def load_row (date : Option String) (machine product : String)
    (production reject performancePct workingDays downtime : ℚ) : Row :=
  { date := date
    machine := machine.trim
    product := product.trim
    production := production
    reject := reject
    performancePct := performancePct
    workingDays := workingDays
    downtime := downtime
    goodUnits := production - reject
    quality := if 0 < production then some ((production - reject) / production) else none
    performance := performancePct
    plannedDays := workingDays }

/-- `add_oee_metrics` (app.py lines 53-72) on one row of the copied frame:
`Planned hours = Planned days * hours_per_day`; `Availability` is
`1 - downtime / Planned hours` where `Planned hours > 0` and NaN otherwise,
then clipped into [0, 1] (clip leaves NaN alone); `OEE = A * P * Q`. -/
def add_oee_metrics (r : Row) (h : ℚ) : Row :=
  let ph := r.plannedDays * h
  let avail := (if 0 < ph then some (1 - r.downtime / ph) else none).map clip01
  { r with
    plannedHours := some ph
    availability := avail
    oee := nmul (nmul avail (some r.performance)) r.quality }

/-- `add_oee_metrics` on the whole dataframe (`df.copy()` then column
assignments: the input list is untouched, a new list is built). -/
def add_oee_metrics_df (rows : List Row) (h : ℚ) : List Row :=
  rows.map (fun r => add_oee_metrics r h)

/-- A dataframe cell as a groupby key component. -/
inductive ColVal
  | vs : String → ColVal
  | vn : ℚ → ColVal
  | von : Option ℚ → ColVal
  | vos : Option String → ColVal
deriving DecidableEq, Repr

/-- Column lookup by dataframe column name; `none` means the column does
not exist in the frame (pandas raises `KeyError` on it). -/
def getCol (r : Row) : String → Option ColVal
  | "Date" => some (ColVal.vos r.date)
  | "Machine" => some (ColVal.vs r.machine)
  | "Product" => some (ColVal.vs r.product)
  | "Production per unit" => some (ColVal.vn r.production)
  | "Reject per unit" => some (ColVal.vn r.reject)
  | "Performance %" => some (ColVal.vn r.performancePct)
  | "Working days" => some (ColVal.vn r.workingDays)
  | "downtime" => some (ColVal.vn r.downtime)
  | "Good units" => some (ColVal.vn r.goodUnits)
  | "Quality" => some (ColVal.von r.quality)
  | "Performance" => some (ColVal.vn r.performance)
  | "Planned days" => some (ColVal.vn r.plannedDays)
  | "Planned hours" => some (ColVal.von r.plannedHours)
  | "Availability" => some (ColVal.von r.availability)
  | "OEE" => some (ColVal.von r.oee)
  | _ => none

/-- The column names of the dataframe handed to `aggregate_oee`. -/
def dfCols : List String :=
  [("Date"), ("Machine"), ("Product"), ("Production per unit"),
   ("Reject per unit"), ("Performance %"), ("Working days"), ("downtime"),
   ("Good units"), ("Quality"), ("Performance"), ("Planned days"),
   ("Planned hours"), ("Availability"), ("OEE")]

/-- A NaN key component (pandas `groupby` drops such rows). -/
def isMissing : ColVal → Bool
  | ColVal.von none => true
  | ColVal.vos none => true
  | _ => false

/-- The groupby key of a row for the given key columns. -/
def keyOf (r : Row) (cols : List String) : List ColVal :=
  cols.filterMap (getCol r)

/-- The rows that take part in a groupby: pandas drops rows whose key
contains NaN. -/
def groupRows (rows : List Row) (cols : List String) : List Row :=
  rows.filter (fun r => (keyOf r cols).all (fun v => !isMissing v))

/-- Distinct keys in first-occurrence order. -/
def firstDedup {α : Type} [DecidableEq α] : List α → List α
  | [] => []
  | a :: as => a :: (firstDedup as).filter (fun x => x ≠ a)

/-- The distinct group keys produced by `df.groupby(group_cols)`. -/
def gKeys (rows : List Row) (cols : List String) : List (List ColVal) :=
  firstDedup ((groupRows rows cols).map (fun r => keyOf r cols))

/-- The member rows of the group with key `k`. -/
def membersOf (rows : List Row) (cols : List String) (k : List ColVal) : List Row :=
  (groupRows rows cols).filter (fun r => keyOf r cols == k)

/-- The second groupby of `aggregate_oee` (app.py lines 111-115): the
unweighted mean of the `Performance` column per group. -/
def perfTmp (rows : List Row) (cols : List String) : List (List ColVal × ℚ) :=
  (gKeys rows cols).map (fun k =>
    (k, ((membersOf rows cols k).map Row.performance).sum /
        ((membersOf rows cols k).length : ℚ)))

/-- The left merge on the group columns (app.py line 116): the first `tmp`
row with a matching key supplies `Performance`; no match gives NaN. -/
def mergePerf (tmp : List (List ColVal × ℚ)) (k : List ColVal) : Option ℚ :=
  (tmp.find? (fun p => p.1 == k)).map (fun p => p.2)

/-- One output row of `aggregate_oee` (columns of `agg` after line 118). -/
structure Agg where
  key : List ColVal
  Production_units : ℚ
  Good_units : ℚ
  Reject_units : ℚ
  Downtime : ℚ
  Planned_hours : ℚ
  Quality : Option ℚ
  Availability : Option ℚ
  Performance : Option ℚ
  OEE : Option ℚ
deriving DecidableEq, Repr

/-- Errors raised by `df.groupby(group_cols)`: `invalidGroupKey` models the
pandas `KeyError` on a key column absent from the frame (the spec's
`InvalidGroupKey`); `emptyGroupKeys` models the pandas `ValueError` on an
empty key list. -/
inductive AggError
  | invalidGroupKey
  | emptyGroupKeys
deriving DecidableEq, Repr

/-- The aggregate row for key `k`: summed columns (pandas sums skip NaN),
ratio-of-sums `Quality`, clipped ratio-of-sums `Availability`, merged mean
`Performance`, and `OEE = Availability * Performance * Quality`. -/
def mkAgg (rows : List Row) (cols : List String) (tmp : List (List ColVal × ℚ))
    (k : List ColVal) : Agg :=
  let ms := membersOf rows cols k
  let pu := (ms.map Row.production).sum
  let gu := (ms.map Row.goodUnits).sum
  let ru := (ms.map Row.reject).sum
  let dt := (ms.map Row.downtime).sum
  let ph := (ms.map (fun r => r.plannedHours.getD 0)).sum
  { key := k
    Production_units := pu
    Good_units := gu
    Reject_units := ru
    Downtime := dt
    Planned_hours := ph
    Quality := if 0 < pu then some (gu / pu) else none
    Availability := (if 0 < ph then some (1 - dt / ph) else none).map clip01
    Performance := mergePerf tmp k
    OEE := nmul (nmul ((if 0 < ph then some (1 - dt / ph) else none).map clip01)
                      (mergePerf tmp k))
                (if 0 < pu then some (gu / pu) else none) }

/-- `aggregate_oee` (app.py lines 78-119). -/
def aggregate_oee (rows : List Row) (cols : List String) :
    Except AggError (List Agg) :=
  if cols.isEmpty then Except.error AggError.emptyGroupKeys
  else if cols.all (fun c => dfCols.contains c) then
    Except.ok ((gKeys rows cols).map (mkAgg rows cols (perfTmp rows cols)))
  else Except.error AggError.invalidGroupKey

/-- The top-level KPI block of `main` (app.py lines 238-263). -/
structure Overall where
  total_prod : ℚ
  total_good : ℚ
  total_reject : ℚ
  total_downtime : ℚ
  quality : Option ℚ
  total_planned_hours : ℚ
  availability : Option ℚ
  performance : Option ℚ
  oee : Option ℚ
deriving DecidableEq, Repr

/-- `main`, lines 238-263: ratio-of-sums quality, clipped ratio-of-sums
availability, `np.average` (production-weighted mean) performance guarded
by `total_prod > 0`, and an OEE that is NaN as soon as one factor is. -/
def overallSummary (rows : List Row) : Overall :=
  let total_prod := (rows.map Row.production).sum
  let total_good := (rows.map Row.goodUnits).sum
  let total_downtime := (rows.map Row.downtime).sum
  let q := if 0 < total_prod then some (total_good / total_prod) else none
  let tph := (rows.map (fun r => r.plannedHours.getD 0)).sum
  let av := (if 0 < tph then some (1 - total_downtime / tph) else none).map clip01
  let pf := if 0 < total_prod then
      some ((rows.map (fun r => r.production * r.performance)).sum /
            (rows.map Row.production).sum)
    else none
  { total_prod := total_prod
    total_good := total_good
    total_reject := (rows.map Row.reject).sum
    total_downtime := total_downtime
    quality := q
    total_planned_hours := tph
    availability := av
    performance := pf
    oee := match av, pf, q with
           | some a, some p, some qq => some (a * p * qq)
           | _, _, _ => none }

deriving instance DecidableEq for Except

/-! Concrete data used by counterexamples and witnesses: two records of
machine `M1` (scenario A of the spec, `hours_per_day = 24`), and a
zero-production record. -/

/-- Machine M1: production 100, reject 10, performance 0.9, 1 working day,
2 downtime hours; the row as it stands after `load_data` and
`add_oee_metrics` with 24 hours per day (written as a literal because the
kernel cannot evaluate `String.trim`). -/
def exR1 : Row :=
  { date := none
    machine := "M1"
    product := "P1"
    production := 100
    reject := 10
    performancePct := 9/10
    workingDays := 1
    downtime := 2
    goodUnits := 90
    quality := some (9/10)
    performance := 9/10
    plannedDays := 1
    plannedHours := some 24
    availability := some (11/12)
    oee := some (297/400) }

/-- Machine M1: production 50, reject 0, performance 0.8, 1 working day,
1 downtime hour; the row after `load_data` and `add_oee_metrics` with 24
hours per day. -/
def exR2 : Row :=
  { date := none
    machine := "M1"
    product := "P2"
    production := 50
    reject := 0
    performancePct := 8/10
    workingDays := 1
    downtime := 1
    goodUnits := 50
    quality := some 1
    performance := 8/10
    plannedDays := 1
    plannedHours := some 24
    availability := some (23/24)
    oee := some (23/30) }

/-- The two-record example dataframe. -/
def exRows : List Row := [exR1, exR2]

/-- The single aggregate row of `aggregate_oee exRows ["Machine"]`. -/
def gEx : Agg :=
  { key := [ColVal.vs ("M1")]
    Production_units := 150
    Good_units := 140
    Reject_units := 10
    Downtime := 3
    Planned_hours := 48
    Quality := some (14/15)
    Availability := some (15/16)
    Performance := some (17/20)
    OEE := some (119/160) }

/-- A record with zero production (scenario B), the row after `load_data`
and `add_oee_metrics` with 24 hours per day. -/
def zR : Row :=
  { date := none
    machine := "M1"
    product := "P1"
    production := 0
    reject := 0
    performancePct := 9/10
    workingDays := 1
    downtime := 2
    goodUnits := 0
    quality := none
    performance := 9/10
    plannedDays := 1
    plannedHours := some 24
    availability := some (11/12)
    oee := none }

/-- The single aggregate row of `aggregate_oee [zR] ["Machine"]`. -/
def gz : Agg :=
  { key := [ColVal.vs ("M1")]
    Production_units := 0
    Good_units := 0
    Reject_units := 0
    Downtime := 2
    Planned_hours := 24
    Quality := none
    Availability := some (11/12)
    Performance := some (9/10)
    OEE := none }

/-- A record whose downtime (30h) exceeds its planned hours (24h). -/
def rHi : Row := load_row none ("M1") ("P1") 100 10 (9/10) 1 30

/-- A record with (invalid) negative downtime. -/
def rNeg : Row := load_row none ("M1") ("P1") 100 10 (9/10) 1 (-1)

/-! Helper lemmas about the embedded operations. -/

theorem clip01_nonneg (x : ℚ) : 0 ≤ clip01 x :=
  le_min (le_max_right x 0) zero_le_one

theorem clip01_le_one (x : ℚ) : clip01 x ≤ 1 :=
  min_le_right _ _

theorem clip01_of_nonpos {x : ℚ} (hx : x ≤ 0) : clip01 x = 0 := by
  unfold clip01
  rw [max_eq_right hx, min_eq_left zero_le_one]

theorem clip01_of_one_le {x : ℚ} (hx : 1 ≤ x) : clip01 x = 1 := by
  unfold clip01
  rw [max_eq_left (le_trans zero_le_one hx), min_eq_right hx]

theorem opt_clip_bounds (o : Option ℚ) (a : ℚ) (h : o.map clip01 = some a) :
    0 ≤ a ∧ a ≤ 1 := by
  cases o with
  | none => cases h
  | some x =>
    have hx : clip01 x = a := by simpa [Option.map] using h
    exact hx ▸ ⟨clip01_nonneg x, clip01_le_one x⟩

theorem match3_eq_nmul (a p q : Option ℚ) :
    (match a, p, q with
     | some x, some y, some z => some (x * y * z)
     | _, _, _ => none) = nmul (nmul a p) q := by
  cases a <;> cases p <;> cases q <;> rfl

theorem mem_of_mem_firstDedup {α : Type} [DecidableEq α] (l : List α) (a : α)
    (h : a ∈ firstDedup l) : a ∈ l := by
  induction l with
  | nil => cases h
  | cons b bs ih =>
    have h' : a ∈ b :: (firstDedup bs).filter (fun x => x ≠ b) := h
    rcases List.mem_cons.mp h' with h1 | h2
    · exact h1 ▸ List.mem_cons_self _ _
    · exact List.mem_cons_of_mem _ (ih (List.mem_of_mem_filter h2))

theorem firstDedup_const {α : Type} [DecidableEq α] (k : α) :
    ∀ (l : List α), l ≠ [] → (∀ x ∈ l, x = k) → firstDedup l = [k] := by
  intro l
  induction l with
  | nil => intro h _; exact absurd rfl h
  | cons a as ih =>
    intro _ hall
    have ha : a = k := hall a (List.mem_cons_self a as)
    cases as with
    | nil => simp [firstDedup, ha]
    | cons b bs =>
      have hd : firstDedup (b :: bs) = [k] :=
        ih (by simp) (fun x hx => hall x (List.mem_cons_of_mem _ hx))
      rw [show firstDedup (a :: b :: bs)
            = a :: (firstDedup (b :: bs)).filter (fun x => x ≠ a) from rfl, hd]
      simp [ha]

theorem find_map_pair {α β : Type} [BEq α] [LawfulBEq α] (f : α → β) :
    ∀ (keys : List α) (k : α), k ∈ keys →
      (keys.map (fun x => (x, f x))).find? (fun p => p.1 == k) = some (k, f k) := by
  intro keys
  induction keys with
  | nil => intro k hk; cases hk
  | cons a as ih =>
    intro k hk
    by_cases hak : a = k
    · subst hak
      simp [List.find?]
    · rcases List.mem_cons.mp hk with h1 | h2
      · exact absurd h1.symm hak
      · rw [List.map_cons, List.find?_cons]
        have : ((a, f a).1 == k) = false := by simpa using hak
        rw [this]
        exact ih k h2

theorem mergePerf_perfTmp (rows : List Row) (cols : List String) (k : List ColVal)
    (hk : k ∈ gKeys rows cols) :
    mergePerf (perfTmp rows cols) k =
      some (((membersOf rows cols k).map Row.performance).sum /
            ((membersOf rows cols k).length : ℚ)) := by
  unfold mergePerf perfTmp
  rw [find_map_pair (fun k => ((membersOf rows cols k).map Row.performance).sum /
        ((membersOf rows cols k).length : ℚ)) (gKeys rows cols) k hk]
  rfl

theorem mkAgg_key (rows : List Row) (cols : List String)
    (tmp : List (List ColVal × ℚ)) (k : List ColVal) :
    (mkAgg rows cols tmp k).key = k := rfl

theorem mkAgg_production (rows : List Row) (cols : List String)
    (tmp : List (List ColVal × ℚ)) (k : List ColVal) :
    (mkAgg rows cols tmp k).Production_units =
      ((membersOf rows cols k).map Row.production).sum := rfl

theorem mkAgg_quality (rows : List Row) (cols : List String)
    (tmp : List (List ColVal × ℚ)) (k : List ColVal) :
    (mkAgg rows cols tmp k).Quality =
      if 0 < ((membersOf rows cols k).map Row.production).sum
      then some (((membersOf rows cols k).map Row.goodUnits).sum /
                 ((membersOf rows cols k).map Row.production).sum)
      else none := rfl

theorem mkAgg_availability (rows : List Row) (cols : List String)
    (tmp : List (List ColVal × ℚ)) (k : List ColVal) :
    (mkAgg rows cols tmp k).Availability =
      (if 0 < ((membersOf rows cols k).map (fun r => r.plannedHours.getD 0)).sum
       then some (1 - ((membersOf rows cols k).map Row.downtime).sum /
                      ((membersOf rows cols k).map (fun r => r.plannedHours.getD 0)).sum)
       else none).map clip01 := rfl

theorem mkAgg_performance (rows : List Row) (cols : List String)
    (tmp : List (List ColVal × ℚ)) (k : List ColVal) :
    (mkAgg rows cols tmp k).Performance = mergePerf tmp k := rfl

theorem mkAgg_oee (rows : List Row) (cols : List String)
    (tmp : List (List ColVal × ℚ)) (k : List ColVal) :
    (mkAgg rows cols tmp k).OEE =
      nmul (nmul (mkAgg rows cols tmp k).Availability (mkAgg rows cols tmp k).Performance)
           (mkAgg rows cols tmp k).Quality := rfl

theorem overall_quality_def (rows : List Row) :
    (overallSummary rows).quality =
      if 0 < (rows.map Row.production).sum
      then some ((rows.map Row.goodUnits).sum / (rows.map Row.production).sum)
      else none := rfl

theorem overall_availability_def (rows : List Row) :
    (overallSummary rows).availability =
      (if 0 < (rows.map (fun r => r.plannedHours.getD 0)).sum
       then some (1 - (rows.map Row.downtime).sum /
                      (rows.map (fun r => r.plannedHours.getD 0)).sum)
       else none).map clip01 := rfl

theorem overall_performance_def (rows : List Row) :
    (overallSummary rows).performance =
      if 0 < (rows.map Row.production).sum
      then some ((rows.map (fun r => r.production * r.performance)).sum /
                 (rows.map Row.production).sum)
      else none := rfl

theorem overall_oee_eq_nmul (rows : List Row) :
    (overallSummary rows).oee =
      nmul (nmul (overallSummary rows).availability (overallSummary rows).performance)
           (overallSummary rows).quality :=
  match3_eq_nmul _ _ _

theorem aggregate_oee_ok (rows : List Row) (cols : List String) (gs : List Agg)
    (h : aggregate_oee rows cols = Except.ok gs) :
    gs = (gKeys rows cols).map (mkAgg rows cols (perfTmp rows cols)) := by
  unfold aggregate_oee at h
  split at h
  · exact Except.noConfusion h
  · split at h
    · injection h with h'
      exact h'.symm
    · exact Except.noConfusion h

theorem mem_agg_elim (rows : List Row) (cols : List String) (gs : List Agg) (g : Agg)
    (hok : aggregate_oee rows cols = Except.ok gs) (hg : g ∈ gs) :
    ∃ k ∈ gKeys rows cols, g = mkAgg rows cols (perfTmp rows cols) k := by
  rw [aggregate_oee_ok rows cols gs hok] at hg
  obtain ⟨k, hk, heq⟩ := List.mem_map.mp hg
  exact ⟨k, hk, heq.symm⟩

theorem membersOf_subset (rows : List Row) (cols : List String) (k : List ColVal) :
    ∀ r ∈ membersOf rows cols k, r ∈ rows := by
  intro r hr
  unfold membersOf groupRows at hr
  exact List.mem_of_mem_filter (List.mem_of_mem_filter hr)

theorem agg_perf_eq (rows : List Row) (cols : List String) (gs : List Agg) (g : Agg)
    (hok : aggregate_oee rows cols = Except.ok gs) (hg : g ∈ gs) :
    g.Performance =
      some (((membersOf rows cols g.key).map Row.performance).sum /
            ((membersOf rows cols g.key).length : ℚ)) := by
  obtain ⟨k, hk, rfl⟩ := mem_agg_elim rows cols gs g hok hg
  rw [mkAgg_performance, mkAgg_key, mergePerf_perfTmp rows cols k hk]

theorem nmul_none (a : Option ℚ) : nmul a none = none := by
  cases a <;> rfl

theorem add_oee_availability_def (r : Row) (h : ℚ) :
    (add_oee_metrics r h).availability =
      (if 0 < r.plannedDays * h
       then some (1 - r.downtime / (r.plannedDays * h))
       else none).map clip01 := rfl

/-- Evaluating the aggregation on the two-record example dataframe. -/
theorem exAgg_eval : aggregate_oee exRows [("Machine")] = Except.ok [gEx] := by
  norm_num [aggregate_oee, gKeys, groupRows, keyOf, getCol, isMissing, firstDedup,
    membersOf, perfTmp, mergePerf, mkAgg, nmul, clip01, exRows, exR1, exR2, gEx,
    List.filter, List.filterMap, List.find?, List.all, dfCols]

/-- Evaluating the aggregation on the zero-production example dataframe. -/
theorem zAgg_eval : aggregate_oee [zR] [("Machine")] = Except.ok [gz] := by
  norm_num [aggregate_oee, gKeys, groupRows, keyOf, getCol, isMissing, firstDedup,
    membersOf, perfTmp, mergePerf, mkAgg, nmul, clip01, zR, gz,
    List.filter, List.filterMap, List.find?, List.all, dfCols]

/-! The claims. -/

/-- C1, counterexample: on the two-record example the single `Machine`
group has positive total production (150) but its `Performance` is the
unweighted mean 17/20 of the member ratios, not the production-weighted
mean 13/15 — refuting the claim that `aggregate_oee` computes the
production-weighted mean. -/
theorem C1_counterexample :
    aggregate_oee exRows [("Machine")] = Except.ok [gEx]
    ∧ 0 < gEx.Production_units
    ∧ gEx.Performance ≠
        some (((membersOf exRows [("Machine")] gEx.key).map
                 (fun r => r.production * r.performance)).sum /
              ((membersOf exRows [("Machine")] gEx.key).map Row.production).sum) := by
  refine ⟨exAgg_eval, by norm_num [gEx], ?_⟩
  norm_num [membersOf, groupRows, keyOf, getCol, isMissing, exRows, exR1, exR2, gEx,
    List.filter, List.filterMap, List.all]

/-- C1 (amended): every group produced by `aggregate_oee` has as its
performance metric the simple (unweighted) mean of the member records'
performance ratios — pandas `mean` on the `Performance` column — not the
production-weighted mean. -/
theorem C1_agg_performance_unweighted_mean (rows : List Row) (cols : List String)
    (gs : List Agg) (g : Agg) (hok : aggregate_oee rows cols = Except.ok gs)
    (hg : g ∈ gs) :
    g.Performance =
      some (((membersOf rows cols g.key).map Row.performance).sum /
            ((membersOf rows cols g.key).length : ℚ)) :=
  agg_perf_eq rows cols gs g hok hg

/-- C1, witness: the amended theorem applied to the two-record example. -/
theorem C1_witness :
    gEx.Performance =
      some (((membersOf exRows [("Machine")] gEx.key).map Row.performance).sum /
            ((membersOf exRows [("Machine")] gEx.key).length : ℚ)) :=
  C1_agg_performance_unweighted_mean exRows [("Machine")] [gEx] gEx exAgg_eval
    (by simp)

/-- C2, counterexample: on the two-record example (non-empty, one constant
`Machine` key) the overall summary's OEE (91/120, weighted-mean
performance) differs from the single aggregate group's OEE (119/160,
unweighted-mean performance) — refuting the claimed equivalence. -/
theorem C2_counterexample :
    exRows ≠ []
    ∧ aggregate_oee exRows [("Machine")] = Except.ok [gEx]
    ∧ (overallSummary exRows).oee ≠ gEx.OEE := by
  refine ⟨by simp [exRows], exAgg_eval, ?_⟩
  norm_num [overallSummary, exRows, exR1, exR2, gEx, nmul, clip01]

/-- C2 (amended): for a non-empty record set aggregated by one valid column
that is constant (and non-NaN) across the records, the single group agrees
with the overall summary on quality and on availability; its OEE agrees as
well whenever the unweighted mean of the records' performance ratios equals
their production-weighted mean (in general the two OEE values differ,
because `aggregate_oee` uses the unweighted mean while the overall summary
uses the weighted one). -/
theorem C2_overall_vs_constant_key_aggregate (rows : List Row) (c : String)
    (v : ColVal) (hne : rows ≠ []) (hv : dfCols.contains c = true)
    (hkey : ∀ r ∈ rows, getCol r c = some v) (hmiss : isMissing v = false) :
    (aggregate_oee rows [c]).map (List.map Agg.Quality)
        = Except.ok [(overallSummary rows).quality]
    ∧ (aggregate_oee rows [c]).map (List.map Agg.Availability)
        = Except.ok [(overallSummary rows).availability]
    ∧ ((rows.map Row.performance).sum / (rows.length : ℚ)
          = (rows.map (fun r => r.production * r.performance)).sum /
            (rows.map Row.production).sum →
        (aggregate_oee rows [c]).map (List.map Agg.OEE)
          = Except.ok [(overallSummary rows).oee]) := by
  have hkeyOf : ∀ r ∈ rows, keyOf r [c] = [v] := by
    intro r hr
    simp [keyOf, hkey r hr]
  have hgroup : groupRows rows [c] = rows := by
    unfold groupRows
    apply List.filter_eq_self.mpr
    intro r hr
    simp [hkeyOf r hr, hmiss]
  have hkeys : gKeys rows [c] = [[v]] := by
    unfold gKeys
    rw [hgroup]
    refine firstDedup_const [v] _ ?_ ?_
    · simpa using hne
    · intro x hx
      obtain ⟨r, hr, rfl⟩ := List.mem_map.mp hx
      exact hkeyOf r hr
  have hmems : membersOf rows [c] [v] = rows := by
    unfold membersOf
    rw [hgroup]
    apply List.filter_eq_self.mpr
    intro r hr
    simp [hkeyOf r hr]
  have hkv : [v] ∈ gKeys rows [c] := by
    rw [hkeys]
    simp
  have hokk : aggregate_oee rows [c]
      = Except.ok [mkAgg rows [c] (perfTmp rows [c]) [v]] := by
    unfold aggregate_oee
    rw [if_neg (by simp), if_pos (by simpa using hv), hkeys]
    rfl
  have hq : (mkAgg rows [c] (perfTmp rows [c]) [v]).Quality
      = (overallSummary rows).quality := by
    rw [mkAgg_quality, hmems, overall_quality_def]
  have hav : (mkAgg rows [c] (perfTmp rows [c]) [v]).Availability
      = (overallSummary rows).availability := by
    rw [mkAgg_availability, hmems, overall_availability_def]
  refine ⟨?_, ?_, ?_⟩
  · rw [hokk]
    show Except.ok [(mkAgg rows [c] (perfTmp rows [c]) [v]).Quality] = _
    rw [hq]
  · rw [hokk]
    show Except.ok [(mkAgg rows [c] (perfTmp rows [c]) [v]).Availability] = _
    rw [hav]
  · intro hmean
    rw [hokk]
    show Except.ok [(mkAgg rows [c] (perfTmp rows [c]) [v]).OEE] = _
    rw [mkAgg_oee, overall_oee_eq_nmul]
    by_cases hp : 0 < (rows.map Row.production).sum
    · have hpf : (mkAgg rows [c] (perfTmp rows [c]) [v]).Performance
          = (overallSummary rows).performance := by
        rw [mkAgg_performance, mergePerf_perfTmp rows [c] [v] hkv, hmems,
          overall_performance_def, if_pos hp, hmean]
      rw [hq, hav, hpf]
    · have hqn : (mkAgg rows [c] (perfTmp rows [c]) [v]).Quality = none := by
        rw [mkAgg_quality, hmems, if_neg hp]
      have hqn' : (overallSummary rows).quality = none := by
        rw [overall_quality_def, if_neg hp]
      rw [hqn, hqn', nmul_none, nmul_none]

/-- C2, witness: the amended theorem applied to the one-record dataframe
`[exR1]`, whose unweighted and weighted performance means coincide. -/
theorem C2_witness :
    (aggregate_oee [exR1] [("Machine")]).map (List.map Agg.Quality)
        = Except.ok [(overallSummary [exR1]).quality]
    ∧ (aggregate_oee [exR1] [("Machine")]).map (List.map Agg.Availability)
        = Except.ok [(overallSummary [exR1]).availability]
    ∧ (aggregate_oee [exR1] [("Machine")]).map (List.map Agg.OEE)
        = Except.ok [(overallSummary [exR1]).oee] := by
  have h := C2_overall_vs_constant_key_aggregate [exR1] ("Machine")
    (ColVal.vs ("M1")) (by simp) (by decide)
    (by intro r hr; simp at hr; subst hr; rfl) rfl
  exact ⟨h.1, h.2.1, h.2.2 (by norm_num [exR1])⟩

/-- C3: every aggregate group with positive total production has as its
quality the ratio of sums: the summed member `Good units` divided by the
summed member `Production per unit`. -/
theorem C3_quality_ratio_of_sums (rows : List Row) (cols : List String)
    (gs : List Agg) (g : Agg) (hok : aggregate_oee rows cols = Except.ok gs)
    (hg : g ∈ gs) (hpos : 0 < g.Production_units) :
    g.Quality = some (((membersOf rows cols g.key).map Row.goodUnits).sum /
                      ((membersOf rows cols g.key).map Row.production).sum) := by
  obtain ⟨k, hk, rfl⟩ := mem_agg_elim rows cols gs g hok hg
  rw [mkAgg_production] at hpos
  rw [mkAgg_key, mkAgg_quality, if_pos hpos]

/-- C3, witness: the ratio-of-sums theorem applied to the two-record
example group. -/
theorem C3_witness :
    gEx.Quality = some (((membersOf exRows [("Machine")] gEx.key).map Row.goodUnits).sum /
                        ((membersOf exRows [("Machine")] gEx.key).map Row.production).sum) :=
  C3_quality_ratio_of_sums exRows [("Machine")] [gEx] gEx exAgg_eval (by simp)
    (by norm_num [gEx])

/-- C4: grouping by a key column that is not a column of the dataframe
fails with the distinguished fatal error (`InvalidGroupKey`, the pandas
`KeyError`) instead of returning a result. -/
theorem C4_invalid_group_key (rows : List Row) (cols : List String) (c : String)
    (hc : c ∈ cols) (hcv : dfCols.contains c = false) :
    aggregate_oee rows cols = Except.error AggError.invalidGroupKey := by
  have h1 : cols.isEmpty = false := by
    cases cols with
    | nil => cases hc
    | cons a as => rfl
  have h2 : ¬ (cols.all (fun x => dfCols.contains x) = true) := by
    intro hco
    have := List.all_eq_true.mp hco c hc
    rw [hcv] at this
    cases this
  unfold aggregate_oee
  rw [if_neg (by simp [h1]), if_neg h2]

/-- C4, witness: grouping the example dataframe by the non-existent column
`Line` fails with the invalid-group-key error. -/
theorem C4_witness :
    aggregate_oee exRows [("Line")] = Except.error AggError.invalidGroupKey :=
  C4_invalid_group_key exRows [("Line")] ("Line") (by simp) (by decide)

/-- C5: for a record with positive planned hours, downtime exceeding the
planned hours gives availability exactly 0, negative downtime gives
availability clamped to 1, and any defined availability lies in [0, 1];
every defined aggregate-group availability also lies in [0, 1]. -/
theorem C5_availability_clamped (r : Row) (h : ℚ) (hph : 0 < r.plannedDays * h) :
    ((r.plannedDays * h < r.downtime → (add_oee_metrics r h).availability = some 0)
     ∧ (r.downtime < 0 → (add_oee_metrics r h).availability = some 1)
     ∧ ∀ a : ℚ, (add_oee_metrics r h).availability = some a → 0 ≤ a ∧ a ≤ 1)
    ∧ ∀ (rows : List Row) (cols : List String) (gs : List Agg) (g : Agg) (a : ℚ),
        aggregate_oee rows cols = Except.ok gs → g ∈ gs →
        g.Availability = some a → 0 ≤ a ∧ a ≤ 1 := by
  constructor
  · refine ⟨?_, ?_, ?_⟩
    · intro hd
      rw [add_oee_availability_def, if_pos hph]
      have h1 : 1 < r.downtime / (r.plannedDays * h) := (one_lt_div hph).mpr hd
      have h2 : 1 - r.downtime / (r.plannedDays * h) ≤ 0 := by linarith
      simp [Option.map, clip01_of_nonpos h2]
    · intro hd
      rw [add_oee_availability_def, if_pos hph]
      have h1 : r.downtime / (r.plannedDays * h) < 0 := div_neg_of_neg_of_pos hd hph
      have h2 : (1:ℚ) ≤ 1 - r.downtime / (r.plannedDays * h) := by linarith
      simp [Option.map, clip01_of_one_le h2]
    · intro a ha
      rw [add_oee_availability_def] at ha
      exact opt_clip_bounds _ a ha
  · intro rows cols gs g a hok hg ha
    obtain ⟨k, hk, rfl⟩ := mem_agg_elim rows cols gs g hok hg
    rw [mkAgg_availability] at ha
    exact opt_clip_bounds _ a ha

/-- C5, witness: with 24 planned hours, 30 downtime hours give availability
0 and -1 downtime hours give availability 1. -/
theorem C5_witness :
    (add_oee_metrics rHi 24).availability = some 0
    ∧ (add_oee_metrics rNeg 24).availability = some 1 :=
  ⟨(C5_availability_clamped rHi 24 (by norm_num [rHi, load_row])).1.1
      (by norm_num [rHi, load_row]),
   (C5_availability_clamped rNeg 24 (by norm_num [rNeg, load_row])).1.2.1
      (by norm_num [rNeg, load_row])⟩

/-- C6: a record with zero production has undefined (NaN) quality rather
than zero or an error, and aggregating records that all have zero
production yields a group whose quality is undefined (the 0/0 case), not
zero and not a fault. -/
theorem C6_zero_production_quality_undefined :
    (∀ (d : Option String) (m p : String) (rj pp wd dt : ℚ),
        (load_row d m p 0 rj pp wd dt).quality = none)
    ∧ ∀ (rows : List Row) (cols : List String) (gs : List Agg),
        (∀ r ∈ rows, r.production = 0) →
        aggregate_oee rows cols = Except.ok gs →
        ∀ g ∈ gs, g.Quality = none := by
  constructor
  · intro d m p rj pp wd dt
    simp [load_row]
  · intro rows cols gs hall hok g hg
    obtain ⟨k, hk, rfl⟩ := mem_agg_elim rows cols gs g hok hg
    rw [mkAgg_quality]
    have hz : ((membersOf rows cols k).map Row.production).sum = 0 := by
      apply List.sum_eq_zero
      intro x hx
      obtain ⟨r, hr, rfl⟩ := List.mem_map.mp hx
      exact hall r (membersOf_subset rows cols k r hr)
    rw [hz, if_neg (lt_irrefl 0)]

/-- C6, witness: a concrete zero-production record has undefined quality,
and the aggregate of the one-record zero-production dataframe has an
undefined group quality. -/
theorem C6_witness :
    (load_row none ("M1") ("P1") 0 5 (9/10) 1 2).quality = none
    ∧ gz.Quality = none :=
  ⟨C6_zero_production_quality_undefined.1 none ("M1") ("P1") 5 (9/10) 1 2,
   C6_zero_production_quality_undefined.2 [zR] [("Machine")] [gz]
     (by norm_num [zR]) zAgg_eval gz (by simp)⟩

theorem add_oee_metrics_idem (r : Row) (h : ℚ) :
    add_oee_metrics (add_oee_metrics r h) h = add_oee_metrics r h := rfl

/-- C7: applying `add_oee_metrics` twice with the same `hours_per_day`
produces the same dataframe as applying it once. -/
theorem C7_apply_hours_idempotent (rows : List Row) (h : ℚ) :
    add_oee_metrics_df (add_oee_metrics_df rows h) h = add_oee_metrics_df rows h := by
  unfold add_oee_metrics_df
  rw [List.map_map]
  exact List.map_congr_left (fun r _ => add_oee_metrics_idem r h)

/-- C8: aggregating an empty record set with valid group keys returns the
empty group sequence, not an error. -/
theorem C8_empty_records_empty_result (cols : List String) (hne : cols ≠ [])
    (hv : cols.all (fun c => dfCols.contains c) = true) :
    aggregate_oee [] cols = Except.ok [] := by
  have h1 : cols.isEmpty = false := by
    cases cols with
    | nil => exact absurd rfl hne
    | cons a as => rfl
  unfold aggregate_oee
  rw [if_neg (by simp [h1]), if_pos hv]
  rfl

/-- C8, witness: aggregating no rows by `Machine` gives the empty result. -/
theorem C8_witness : aggregate_oee [] [("Machine")] = Except.ok [] :=
  C8_empty_records_empty_result [("Machine")] (by simp) (by decide)

/-- C9: when every record of the set has zero production, any group
produced by `aggregate_oee` still carries the (defined) unweighted mean of
the member performance ratios, while the overall summary's performance is
undefined — the two code paths resolve the zero-total-weight case
differently. -/
theorem C9_zero_weight_performance_paths (rows : List Row) (cols : List String)
    (gs : List Agg) (g : Agg) (hall : ∀ r ∈ rows, r.production = 0)
    (hok : aggregate_oee rows cols = Except.ok gs) (hg : g ∈ gs) :
    g.Performance =
      some (((membersOf rows cols g.key).map Row.performance).sum /
            ((membersOf rows cols g.key).length : ℚ))
    ∧ (overallSummary rows).performance = none := by
  refine ⟨agg_perf_eq rows cols gs g hok hg, ?_⟩
  rw [overall_performance_def]
  have hz : (rows.map Row.production).sum = 0 := by
    apply List.sum_eq_zero
    intro x hx
    obtain ⟨r, hr, rfl⟩ := List.mem_map.mp hx
    exact hall r hr
  rw [hz, if_neg (lt_irrefl 0)]

/-- C9, witness: on the one-record zero-production dataframe the aggregate
group's performance is the (defined) unweighted mean while the overall
summary's performance is undefined. -/
theorem C9_witness :
    gz.Performance =
      some (((membersOf [zR] [("Machine")] gz.key).map Row.performance).sum /
            ((membersOf [zR] [("Machine")] gz.key).length : ℚ))
    ∧ (overallSummary [zR]).performance = none :=
  C9_zero_weight_performance_paths [zR] [("Machine")] [gz] gz
    (by norm_num [zR]) zAgg_eval (by simp)

/-- C10: `add_oee_metrics` preserves every input column value — machine,
product, production, reject, performance (both the raw percentage and the
derived ratio), working/planned days, downtime, good units, quality, date —
and only writes `Planned hours` (set to planned days times the parameter),
`Availability` and `OEE`. -/
theorem C10_frame_preservation (r : Row) (h : ℚ) :
    (add_oee_metrics r h).date = r.date
    ∧ (add_oee_metrics r h).machine = r.machine
    ∧ (add_oee_metrics r h).product = r.product
    ∧ (add_oee_metrics r h).production = r.production
    ∧ (add_oee_metrics r h).reject = r.reject
    ∧ (add_oee_metrics r h).performancePct = r.performancePct
    ∧ (add_oee_metrics r h).workingDays = r.workingDays
    ∧ (add_oee_metrics r h).downtime = r.downtime
    ∧ (add_oee_metrics r h).goodUnits = r.goodUnits
    ∧ (add_oee_metrics r h).quality = r.quality
    ∧ (add_oee_metrics r h).performance = r.performance
    ∧ (add_oee_metrics r h).plannedDays = r.plannedDays
    ∧ (add_oee_metrics r h).plannedHours = some (r.plannedDays * h) :=
  ⟨rfl, rfl, rfl, rfl, rfl, rfl, rfl, rfl, rfl, rfl, rfl, rfl, rfl⟩

end PolytechDashboard
